import Mathlib

/-
Verification of the Bifrost API-gateway core (src/src/services/services.py and
the fixed-window rate limiter described by the design document) through a
shallow embedding in Lean 4.  Python dicts are modelled as association lists,
exceptions as Except values, and the outcomes of the external collaborators
(database session, HTTP client) as explicit oracle parameters.
-/

namespace Bifrost

/-- Values stored in a Python service-configuration dict: strings, integers,
or Python None (display_name, description, service_metadata may be NULL). -/
inductive Value where
  | str (s : String)
  | int (n : Int)
  | noneV
  deriving DecidableEq, Repr

/-- A Python dict with string keys, as an association list.  Lookup returns
the first binding; insertion overwrites an existing key in place (Python
dict assignment) and otherwise appends. -/
abbrev Dict := List (String × Value)

/-- Lookup in a dict: Python d.get(k). -/
def dictGet? (d : Dict) (k : String) : Option Value :=
  match d with
  | [] => none
  | (k2, v) :: rest => if k2 = k then some v else dictGet? rest k

/-- Key membership: Python k in d. -/
def dictContains (d : Dict) (k : String) : Bool :=
  (dictGet? d k).isSome

/-- Python str() of a value, as used by f-string interpolation. -/
def valueStr : Value → String
  | .str s => s
  | .int n => toString n
  | .noneV => "None"

/-- Python str.lower on a header name: lowercases the characters one by one
(Char.toLower maps A-Z to a-z and fixes everything else; header names are
ASCII). -/
def pyLower (s : String) : String :=
  ⟨s.data.map Char.toLower⟩

/-- The registry mapping service name to configuration dict
(ServiceRegistry.services). -/
abbrev Services := List (String × Dict)

/-- Python self.services.get(name): ServiceRegistry.get_service. -/
def get_service (ss : Services) (name : String) : Option Dict :=
  match ss with
  | [] => none
  | (k, d) :: rest => if k = name then some d else get_service rest name

/-- Python dict assignment self.services[name] = config: replace in place if
the key exists, append otherwise. -/
def setService (ss : Services) (name : String) (cfg : Dict) : Services :=
  match ss with
  | [] => [(name, cfg)]
  | (k, d) :: rest =>
      if k = name then (name, cfg) :: rest else (k, d) :: setService rest name cfg

/-- ServiceRegistry.add_service: validates that every required field
(required_fields = ["url"]) is a key of config; on a missing field it logs
and returns False leaving the mapping untouched, otherwise it assigns
self.services[name] = config and returns True.  Nothing in its try block can
raise, so the except branch returning False is unreachable. -/
def add_service (ss : Services) (name : String) (config : Dict) : Bool × Services :=
  if dictContains config "url" then (true, setService ss name config)
  else (false, ss)

/-- A row of the services table as handed back by the persistence layer
(src/crud/service.py, model src/models/service.py). -/
structure DbService where
  id : Int
  name : String
  url : String
  health_check_path : String
  timeout_seconds : Int
  rate_limit_per_minute : Int
  display_name : Value
  description : Value
  service_metadata : Value
  is_active : Bool
  deriving DecidableEq, Repr

/-- The configuration dict that ServiceRegistry._load_services builds for one
database row. -/
def serviceDict (s : DbService) : Dict :=
  [("id", .int s.id),
   ("url", .str s.url),
   ("health_check", .str s.health_check_path),
   ("timeout", .int s.timeout_seconds),
   ("rate_limit", .int s.rate_limit_per_minute),
   ("display_name", s.display_name),
   ("description", s.description),
   ("service_metadata", s.service_metadata)]

/-- crud.get_services(db, active_only=True): filters to rows with
is_active = True and applies the default pagination offset(0).limit(100). -/
def get_services_active (rows : List DbService) : List DbService :=
  (rows.filter (fun s => s.is_active)).take 100

/-- ServiceRegistry._load_services: clears self.services and repopulates it
from the active rows, later rows with a duplicate name overwriting earlier
ones (dict assignment). -/
def load_services (rows : List DbService) : Services :=
  (get_services_active rows).foldl (fun acc s => setService acc s.name (serviceDict s)) []

/-- Outcome of reading the services table: either a list of rows or an
exception raised by the database session / query. -/
inductive LoadOutcome where
  | ok (rows : List DbService)
  | raises
  deriving DecidableEq, Repr

/-- ServiceRegistry.initialize: replaces self.services with a freshly loaded
mapping; if loading raises anywhere, the except branch logs the error and
sets self.services = {} (the empty mapping).  The exception is never
re-raised, hence the function is total here. -/
def initRegistry (ss : Services) (outcome : LoadOutcome) : Services :=
  match outcome with
  | .ok rows => load_services rows
  | .raises => []

/-- ServiceRegistry.reload: delegates to initialize and logs. -/
def reload (ss : Services) (outcome : LoadOutcome) : Services :=
  initRegistry ss outcome

/-- Exceptions of the embedded Python code. -/
inductive PyError where
  | keyError (k : String)
  | connectError
  | timeoutError
  | dbError
  | valueError (service_name : String)
  deriving DecidableEq, Repr

/-- Outcome of the HTTP GET issued to the health URL: a response with some
status code, or an exception (connection failure / timeout) raised by the
client. -/
inductive ProbeOutcome where
  | response (status_code : Nat)
  | connectFailure
  | timeout
  deriving DecidableEq, Repr

/-- Outcome of one call to crud.update_service_health inside a database
session: it either completes or raises. -/
inductive PersistOutcome where
  | ok
  | raises
  deriving DecidableEq, Repr

/-- Observable behaviour of one ServiceRegistry.health_check call: the Bool
it returns, whether an HTTP probe was attempted, and the list of health
statuses successfully persisted through update_service_health. -/
structure HealthCheckEffects where
  result : Bool
  probed : Bool
  dbWrites : List String
  deriving DecidableEq, Repr

/-- The except-handler tail of health_check: it tries to persist "unhealthy"
(reading service["id"] first, which itself may raise a KeyError) inside an
inner try whose except clause swallows everything, then returns False. -/
def healthExceptTail (service : Dict) (persist2 : PersistOutcome) (probed : Bool) :
    HealthCheckEffects :=
  match dictGet? service "id" with
  | none => ⟨false, probed, []⟩
  | some _ =>
      match persist2 with
      | .ok => ⟨false, probed, ["unhealthy"]⟩
      | .raises => ⟨false, probed, []⟩

/-- ServiceRegistry.health_check.  Returns False immediately when the lookup
yields nothing (Python truthiness also treats an empty dict as absent).
Otherwise it builds the health URL (service["url"] may raise KeyError),
issues the GET, computes is_healthy as status_code == 200, persists the
status (service["id"] may raise KeyError, the update may raise), and
returns is_healthy; every exception in that try block falls into the except
handler healthExceptTail.  The Except return type records that nothing
escapes: the function never produces an error value. -/
def health_check (ss : Services) (service_name : String) (probe : ProbeOutcome)
    (persist persist2 : PersistOutcome) : Except PyError HealthCheckEffects :=
  match get_service ss service_name with
  | none => .ok ⟨false, false, []⟩
  | some service =>
    if service.isEmpty then .ok ⟨false, false, []⟩
    else
      match dictGet? service "url" with
      | none => .ok (healthExceptTail service persist2 false)
      | some _ =>
        match probe with
        | .connectFailure => .ok (healthExceptTail service persist2 true)
        | .timeout => .ok (healthExceptTail service persist2 true)
        | .response code =>
          let is_healthy : Bool := code == 200
          let health_status := if is_healthy then "healthy" else "unhealthy"
          match dictGet? service "id" with
          | none => .ok (healthExceptTail service persist2 true)
          | some _ =>
            match persist with
            | .ok => .ok ⟨is_healthy, true, [health_status]⟩
            | .raises =>
                let tail := healthExceptTail service persist2 true
                .ok ⟨tail.result, tail.probed, health_status :: tail.dbWrites⟩

/-- The outbound request that ServiceProxy.forward_request hands to its HTTP
client: method, target URL, filtered headers, body, query params and the
per-service timeout. -/
structure BackendRequest where
  method : String
  url : String
  headers : List (String × String)
  body : Option (List Nat)
  params : Option (List (String × String))
  timeout : Value
  deriving DecidableEq, Repr

/-- A backend HTTP response. -/
structure HttpResponse where
  status_code : Nat
  headers : List (String × String)
  body : List Nat
  deriving DecidableEq, Repr

/-- Outcome of the backend call made by the proxy HTTP client: a response,
or an exception (unreachable backend / timeout). -/
inductive BackendOutcome where
  | response (r : HttpResponse)
  | raises
  deriving DecidableEq, Repr

/-- ServiceProxy.forward_request.  The first component is the request issued
to the backend, none when no backend call was attempted.  An absent service
(or one whose dict is empty, falsy in Python) raises
ValueError("Service ... not found") before any backend traffic; otherwise
the target URL is service["url"] ++ path, the forwarded headers drop every
inbound header whose lowercased key is host, and the request is issued with
timeout service.get("timeout", 30); a failing backend call is logged and
re-raised. -/
def forward_request (ss : Services) (service_name method path : String)
    (headers : List (String × String)) (body : Option (List Nat))
    (params : Option (List (String × String))) (backend : BackendOutcome) :
    Option BackendRequest × Except PyError HttpResponse :=
  match get_service ss service_name with
  | none => (none, .error (.valueError service_name))
  | some service =>
    if service.isEmpty then (none, .error (.valueError service_name))
    else
      match dictGet? service "url" with
      | none => (none, .error (.keyError "url"))
      | some urlv =>
        let target_url := valueStr urlv ++ path
        let forward_headers := headers.filter (fun kv => pyLower kv.1 != "host")
        let timeout := (dictGet? service "timeout").getD (.int 30)
        let req : BackendRequest := ⟨method, target_url, forward_headers, body, params, timeout⟩
        match backend with
        | .response r => (some req, .ok r)
        | .raises => (some req, .error .connectError)

/-- Modelled from the spec: the fixed-window rate limiter middleware is not
among the provided sources (only its configuration constant
RATE_LIMIT_PER_MINUTE and middleware tests appear), so its state follows the
design document: per-client-identity counter with windowStartEpoch (integer
seconds floored to the minute boundary) and count. -/
structure RateLimitWindow where
  windowStartEpoch : Nat
  count : Nat
  deriving DecidableEq, Repr

/-- Modelled from the spec: the limiter's per-identity table, created lazily
on first request from an identity. -/
abbrev LimiterState := List (String × RateLimitWindow)

/-- Lookup of an identity's window entry. -/
def lookupWindow (st : LimiterState) (identity : String) : Option RateLimitWindow :=
  match st with
  | [] => none
  | (k, e) :: rest => if k = identity then some e else lookupWindow rest identity

/-- Store an identity's window entry, overwriting in place. -/
def setWindow (st : LimiterState) (identity : String) (e : RateLimitWindow) : LimiterState :=
  match st with
  | [] => [(identity, e)]
  | (k, d) :: rest =>
      if k = identity then (identity, e) :: rest else (k, d) :: setWindow rest identity e

/-- Modelled from the spec: one rate-limit decision.  Compute
currentWindow = floor(now / 60); if no entry exists for the identity or the
stored window differs, reset the count to 0 and adopt the current window;
increment the count; reject (RateLimitExceeded) exactly when the new count
exceeds the limit, with no rollback of the increment.  True means allowed. -/
def rateLimitCheck (st : LimiterState) (identity : String) (now limit : Nat) :
    Bool × LimiterState :=
  let w := now / 60
  let count0 :=
    match lookupWindow st identity with
    | some e => if e.windowStartEpoch = w then e.count else 0
    | none => 0
  let count1 := count0 + 1
  (decide (count1 ≤ limit), setWindow st identity ⟨w, count1⟩)

/-- Run a sequence of requests from one identity through the limiter,
collecting the decisions and the final state. -/
def runRequests (st : LimiterState) (identity : String) (limit : Nat) :
    List Nat → List Bool × LimiterState
  | [] => ([], st)
  | t :: ts =>
      let r := rateLimitCheck st identity t limit
      let rest := runRequests r.2 identity limit ts
      (r.1 :: rest.1, rest.2)

/-- Extract the returned Bool of a health_check run, none if it raised. -/
def healthResult (e : Except PyError HealthCheckEffects) : Option Bool :=
  match e with
  | .ok eff => some eff.result
  | .error _ => none

theorem get_setService (ss : Services) (name k : String) (cfg : Dict) :
    get_service (setService ss name cfg) k =
      if name = k then some cfg else get_service ss k := by
  induction ss with
  | nil => simp [setService, get_service]
  | cons hd tl ih =>
      obtain ⟨k2, d⟩ := hd
      by_cases h1 : k2 = name
      · subst h1
        by_cases h2 : k2 = k <;> simp [setService, get_service, h2]
      · by_cases h2 : k2 = k
        · subst h2
          simp [setService, get_service, h1]
          rw [if_neg (fun h3 => h1 h3.symm)]
        · simp [setService, get_service, h1, h2, ih]

theorem lookupWindow_setWindow (st : LimiterState) (id1 id2 : String)
    (e : RateLimitWindow) :
    lookupWindow (setWindow st id1 e) id2 =
      if id1 = id2 then some e else lookupWindow st id2 := by
  induction st with
  | nil => simp [setWindow, lookupWindow]
  | cons hd tl ih =>
      obtain ⟨k2, d⟩ := hd
      by_cases h1 : k2 = id1
      · subst h1
        by_cases h2 : k2 = id2 <;> simp [setWindow, lookupWindow, h2]
      · by_cases h2 : k2 = id2
        · subst h2
          simp [setWindow, lookupWindow, h1]
          rw [if_neg (fun h3 => h1 h3.symm)]
        · simp [setWindow, lookupWindow, h1, h2, ih]

theorem dictContains_not_empty (d : Dict) (k : String) (h : dictContains d k = true) :
    d.isEmpty = false := by
  cases d with
  | nil => simp [dictContains, dictGet?] at h
  | cons hd tl => rfl

/-- Claim C10: for every registry state and every config dict lacking the required
url key, add_service returns False without raising and leaves the services
mapping unchanged. -/
theorem add_service_missing_url (ss : Services) (name : String) (config : Dict)
    (h : dictContains config "url" = false) :
    add_service ss name config = (false, ss) := by
  simp [add_service, h]

theorem add_service_missing_url_witness :
    dictContains [("timeout", Value.int 5)] "url" = false ∧
      add_service [("svc", [("url", Value.str "http://a.example")])] "other"
          [("timeout", Value.int 5)] =
        (false, [("svc", [("url", Value.str "http://a.example")])]) :=
  ⟨by decide, add_service_missing_url _ _ _ (by decide)⟩

/-- Claim C8: for every config dict that carries the required url field and every
name not yet registered, add_service succeeds and a subsequent get_service
of that name returns exactly the inserted definition. -/
theorem add_then_get (ss : Services) (name : String) (config : Dict)
    (hurl : dictContains config "url" = true) (habs : get_service ss name = none) :
    (add_service ss name config).1 = true ∧
      get_service (add_service ss name config).2 name = some config := by
  refine ⟨by simp [add_service, hurl], ?_⟩
  simp [add_service, hurl, get_setService]

theorem add_then_get_witness :
    dictContains [("url", Value.str "http://b.example")] "url" = true ∧
      get_service [("svc", [("url", Value.str "http://a.example")])] "fresh" = none ∧
      (add_service [("svc", [("url", Value.str "http://a.example")])] "fresh"
            [("url", Value.str "http://b.example")]).1 = true ∧
      get_service (add_service [("svc", [("url", Value.str "http://a.example")])] "fresh"
            [("url", Value.str "http://b.example")]).2 "fresh" =
        some [("url", Value.str "http://b.example")] :=
  ⟨by decide, by decide,
    add_then_get [("svc", [("url", Value.str "http://a.example")])] "fresh"
      [("url", Value.str "http://b.example")] (by decide) (by decide)⟩

/-- Claim C2 counterexample: with service svc already registered, add_service on
the same name with a valid config does not fail with a duplicate-name error;
it returns True and replaces the stored entry, so the claimed DuplicateName
failure and preservation of the old entry both fail on the code. -/
theorem add_service_duplicate_counterexample :
    (add_service [("svc", [("url", Value.str "http://old.example")])] "svc"
        [("url", Value.str "http://new.example")]).1 = true ∧
      get_service (add_service [("svc", [("url", Value.str "http://old.example")])] "svc"
            [("url", Value.str "http://new.example")]).2 "svc" =
        some [("url", Value.str "http://new.example")] ∧
      ([("url", Value.str "http://new.example")] : Dict) ≠
        [("url", Value.str "http://old.example")] := by
  refine ⟨rfl, by decide, by decide⟩

/-- Claim C2 amended: add_service performs no duplicate-name check; for every
registry already holding an entry under the name and every config carrying
the required url field, the call succeeds (returns True) and overwrites the
existing entry with the new config. -/
theorem add_service_overwrites (ss : Services) (name : String) (config old : Dict)
    (hdup : get_service ss name = some old) (hurl : dictContains config "url" = true) :
    (add_service ss name config).1 = true ∧
      get_service (add_service ss name config).2 name = some config := by
  refine ⟨by simp [add_service, hurl], ?_⟩
  simp [add_service, hurl, get_setService]

theorem add_service_overwrites_witness :
    get_service [("svc", [("url", Value.str "http://old.example")])] "svc" =
        some [("url", Value.str "http://old.example")] ∧
      dictContains [("url", Value.str "http://new.example")] "url" = true ∧
      (add_service [("svc", [("url", Value.str "http://old.example")])] "svc"
            [("url", Value.str "http://new.example")]).1 = true ∧
      get_service (add_service [("svc", [("url", Value.str "http://old.example")])] "svc"
            [("url", Value.str "http://new.example")]).2 "svc" =
        some [("url", Value.str "http://new.example")] :=
  ⟨by decide, by decide,
    add_service_overwrites [("svc", [("url", Value.str "http://old.example")])] "svc"
      [("url", Value.str "http://new.example")] [("url", Value.str "http://old.example")]
      (by decide) (by decide)⟩

/-- Claim C1 counterexample: reloading a registry holding one service while the
database load raises does not retain the pre-reload mapping; the services
mapping afterwards is empty, which differs from the non-empty snapshot. -/
theorem reload_failure_counterexample :
    reload [("svc", [("url", Value.str "http://a.example")])] LoadOutcome.raises = [] ∧
      ([] : Services) ≠ [("svc", [("url", Value.str "http://a.example")])] := by
  refine ⟨rfl, by decide⟩

/-- Claim C1 amended: when initialize or reload fails because loading from the
persistence collaborator raises, the exception is swallowed (only logged)
and the services mapping afterwards is the empty mapping; the pre-reload
snapshot is discarded, not retained. -/
theorem reload_failure_clears (ss : Services) :
    reload ss LoadOutcome.raises = [] ∧ initRegistry ss LoadOutcome.raises = [] :=
  ⟨rfl, rfl⟩

/-- Claim C9: for every service name absent from the registry mapping,
health_check returns False without attempting any HTTP probe and without
persisting any health status. -/
theorem health_check_absent (ss : Services) (name : String) (probe : ProbeOutcome)
    (persist persist2 : PersistOutcome) (h : get_service ss name = none) :
    health_check ss name probe persist persist2 =
      Except.ok ⟨false, false, []⟩ := by
  simp [health_check, h]

theorem health_check_absent_witness :
    get_service [("svc", [("url", Value.str "http://a.example")])] "missing" = none ∧
      health_check [("svc", [("url", Value.str "http://a.example")])] "missing"
          (ProbeOutcome.response 200) PersistOutcome.ok PersistOutcome.ok =
        Except.ok ⟨false, false, []⟩ :=
  ⟨by decide,
    health_check_absent [("svc", [("url", Value.str "http://a.example")])] "missing"
      (ProbeOutcome.response 200) PersistOutcome.ok PersistOutcome.ok (by decide)⟩

/-- Claim C7: for every registry, service name and every outcome of the probe and
of the two persistence attempts, health_check never lets an exception
escape: it always returns a status value (an ok result), every failure
having been converted to False. -/
theorem health_check_never_raises (ss : Services) (name : String)
    (probe : ProbeOutcome) (persist persist2 : PersistOutcome) :
    ∃ eff, health_check ss name probe persist persist2 = Except.ok eff := by
  unfold health_check
  cases get_service ss name with
  | none => exact ⟨_, rfl⟩
  | some service =>
      by_cases he : service.isEmpty
      · simp [he]
      · simp only [he, Bool.false_eq_true, if_false]
        cases dictGet? service "url" with
        | none => exact ⟨_, rfl⟩
        | some u =>
            cases probe with
            | connectFailure => exact ⟨_, rfl⟩
            | timeout => exact ⟨_, rfl⟩
            | response code =>
                cases dictGet? service "id" with
                | none => exact ⟨_, rfl⟩
                | some i =>
                    cases persist with
                    | ok => exact ⟨_, rfl⟩
                    | raises => exact ⟨_, rfl⟩

theorem healthExceptTail_result (service : Dict) (p : PersistOutcome) (b : Bool) :
    (healthExceptTail service p b).result = false := by
  unfold healthExceptTail
  cases dictGet? service "id" with
  | none => rfl
  | some i => cases p <;> rfl

/-- Claim C3 counterexample: a probe answered with HTTP 204, a status inside
[200,299), is recorded as unhealthy by the code (health_check returns False
and persists "unhealthy"), contradicting the claimed 2xx-means-healthy
policy. -/
theorem health_status_2xx_counterexample :
    (200 ≤ 204 ∧ 204 < 299) ∧
      health_check [("svc", [("id", Value.int 1), ("url", Value.str "http://a.example")])]
          "svc" (ProbeOutcome.response 204) PersistOutcome.ok PersistOutcome.ok =
        Except.ok ⟨false, true, ["unhealthy"]⟩ :=
  ⟨⟨by decide, by decide⟩, rfl⟩

/-- Claim C3 amended: for every registered service whose config carries the url
and id keys, a health probe yields healthy exactly when the HTTP response
status equals 200 (other 2xx statuses included with all remaining statuses
as unhealthy), and a connection failure or timeout yields unhealthy. -/
theorem health_status_policy (ss : Services) (name : String) (service : Dict)
    (code : Nat) (persist persist2 : PersistOutcome)
    (hsvc : get_service ss name = some service)
    (hurl : dictContains service "url" = true)
    (hid : dictContains service "id" = true) :
    healthResult
        (health_check ss name (ProbeOutcome.response code) PersistOutcome.ok persist2) =
        some (code == 200) ∧
      healthResult (health_check ss name ProbeOutcome.connectFailure persist persist2) =
        some false ∧
      healthResult (health_check ss name ProbeOutcome.timeout persist persist2) =
        some false := by
  have hne := dictContains_not_empty service "url" hurl
  obtain ⟨u, hu⟩ := Option.isSome_iff_exists.mp hurl
  obtain ⟨i, hi⟩ := Option.isSome_iff_exists.mp hid
  refine ⟨?_, ?_, ?_⟩ <;>
    simp [health_check, hsvc, hne, hu, hi, healthResult, healthExceptTail_result]

theorem health_status_policy_witness :
    get_service [("svc", [("id", Value.int 1), ("url", Value.str "http://a.example")])]
        "svc" = some [("id", Value.int 1), ("url", Value.str "http://a.example")] ∧
      healthResult
          (health_check [("svc", [("id", Value.int 1), ("url", Value.str "http://a.example")])]
            "svc" (ProbeOutcome.response 503) PersistOutcome.ok PersistOutcome.ok) =
        some false ∧
      healthResult
          (health_check [("svc", [("id", Value.int 1), ("url", Value.str "http://a.example")])]
            "svc" ProbeOutcome.timeout PersistOutcome.ok PersistOutcome.ok) =
        some false :=
  ⟨by decide,
    (health_status_policy
      [("svc", [("id", Value.int 1), ("url", Value.str "http://a.example")])] "svc"
      [("id", Value.int 1), ("url", Value.str "http://a.example")] 503
      PersistOutcome.ok PersistOutcome.ok (by decide) (by decide) (by decide)).1,
    (health_status_policy
      [("svc", [("id", Value.int 1), ("url", Value.str "http://a.example")])] "svc"
      [("id", Value.int 1), ("url", Value.str "http://a.example")] 503
      PersistOutcome.ok PersistOutcome.ok (by decide) (by decide) (by decide)).2.2⟩

theorem get_foldl_setService (l : List DbService) (acc : Services) (name : String)
    (h : ∀ r ∈ l, r.name ≠ name) (hacc : get_service acc name = none) :
    get_service (l.foldl (fun a s => setService a s.name (serviceDict s)) acc) name = none := by
  induction l generalizing acc with
  | nil => simpa using hacc
  | cons r rs ih =>
      simp only [List.foldl_cons]
      refine ih _ (fun x hx => h x (List.mem_cons_of_mem _ hx)) ?_
      rw [get_setService, if_neg (h r (List.mem_cons_self _ _)), hacc]

theorem get_load_services_inactive (rows : List DbService) (name : String)
    (h : ∀ r ∈ rows, r.name = name → r.is_active = false) :
    get_service (load_services rows) name = none := by
  refine get_foldl_setService _ _ _ ?_ rfl
  intro r hr hname
  have hr2 : r ∈ rows.filter (fun s => s.is_active) :=
    List.take_subset _ _ hr
  obtain ⟨hmem, hact⟩ := List.mem_filter.mp hr2
  have : r.is_active = false := h r hmem hname
  rw [this] at hact
  exact absurd hact (by simp)

/-- Claim C5: for every service name that get_service resolves to nothing — in
particular any name whose database rows are all inactive, which the loader
filters out — forward_request fails with ValueError (service not found) and
no backend request is issued (the issued-request component is none). -/
theorem forward_request_not_found (ss : Services) (rows : List DbService)
    (name method path : String) (headers : List (String × String))
    (body : Option (List Nat)) (params : Option (List (String × String)))
    (backend : BackendOutcome) :
    (get_service ss name = none →
      forward_request ss name method path headers body params backend =
        (none, Except.error (PyError.valueError name))) ∧
    ((∀ r ∈ rows, r.name = name → r.is_active = false) →
      forward_request (load_services rows) name method path headers body params backend =
        (none, Except.error (PyError.valueError name))) := by
  constructor
  · intro h
    simp [forward_request, h]
  · intro h
    simp [forward_request, get_load_services_inactive rows name h]

theorem forward_request_not_found_witness :
    get_service [("svc", [("url", Value.str "http://a.example")])] "missing" = none ∧
      forward_request [("svc", [("url", Value.str "http://a.example")])] "missing"
          "GET" "/items" [] none none BackendOutcome.raises =
        (none, Except.error (PyError.valueError "missing")) ∧
      forward_request
          (load_services
            [⟨1, "svc", "http://a.example", "/health", 30, 100,
              Value.noneV, Value.noneV, Value.noneV, false⟩])
          "svc" "GET" "/items" [] none none BackendOutcome.raises =
        (none, Except.error (PyError.valueError "svc")) :=
  ⟨by decide,
    (forward_request_not_found [("svc", [("url", Value.str "http://a.example")])] []
      "missing" "GET" "/items" [] none none BackendOutcome.raises).1 (by decide),
    (forward_request_not_found []
      [⟨1, "svc", "http://a.example", "/health", 30, 100,
        Value.noneV, Value.noneV, Value.noneV, false⟩]
      "svc" "GET" "/items" [] none none BackendOutcome.raises).2 (by decide)⟩

/-- Claim C6: for every inbound header list, the request forward_request hands to
the backend carries exactly the inbound headers whose key does not lowercase
to host: the Host header is removed case-insensitively and every other
key/value pair is kept unchanged (order included). -/
theorem forward_request_headers (ss : Services) (name method path : String)
    (headers : List (String × String)) (body : Option (List Nat))
    (params : Option (List (String × String))) (backend : BackendOutcome)
    (service : Dict) (u : Value)
    (hsvc : get_service ss name = some service)
    (hurl : dictGet? service "url" = some u) :
    ∃ req,
      (forward_request ss name method path headers body params backend).1 = some req ∧
        req.headers = headers.filter (fun kv => pyLower kv.1 != "host") ∧
        ∀ kv, kv ∈ req.headers ↔ (kv ∈ headers ∧ pyLower kv.1 ≠ "host") := by
  have hne : service.isEmpty = false := by
    refine dictContains_not_empty service "url" ?_
    rw [dictContains, hurl]
    rfl
  refine ⟨⟨method, valueStr u ++ path,
    headers.filter (fun kv => pyLower kv.1 != "host"), body, params,
    (dictGet? service "timeout").getD (Value.int 30)⟩, ?_, rfl, ?_⟩
  · cases backend <;> simp [forward_request, hsvc, hne, hurl]
  · intro kv
    simp [List.mem_filter, bne_iff_ne]

theorem forward_request_headers_witness :
    get_service [("svc", [("url", Value.str "http://a.example")])] "svc" =
        some [("url", Value.str "http://a.example")] ∧
      dictGet? [("url", Value.str "http://a.example")] "url" =
        some (Value.str "http://a.example") ∧
      ((forward_request [("svc", [("url", Value.str "http://a.example")])] "svc"
            "GET" "/items" [("Host", "gw.example"), ("Accept", "json")] none none
            BackendOutcome.raises).1.map BackendRequest.headers) =
        some [("Accept", "json")] := by
  refine ⟨by decide, by decide, ?_⟩
  obtain ⟨req, h1, h2, h3⟩ :=
    forward_request_headers [("svc", [("url", Value.str "http://a.example")])] "svc"
      "GET" "/items" [("Host", "gw.example"), ("Accept", "json")] none none
      BackendOutcome.raises [("url", Value.str "http://a.example")]
      (Value.str "http://a.example") (by decide) (by decide)
  rw [h1]
  simp only [Option.map_some']
  rw [h2]
  decide

theorem runRequests_counting (identity : String) (L W : Nat) (ts : List Nat)
    (hts : ∀ t ∈ ts, t / 60 = W) :
    ∀ (st : LimiterState) (c : Nat), lookupWindow st identity = some ⟨W, c⟩ →
      (runRequests st identity L ts).1 =
          (List.range ts.length).map (fun i => decide (c + i + 1 ≤ L)) ∧
        lookupWindow (runRequests st identity L ts).2 identity =
          some ⟨W, c + ts.length⟩ := by
  induction ts with
  | nil =>
      intro st c hst
      simpa [runRequests] using hst
  | cons t ts ih =>
      intro st c hst
      have htW : t / 60 = W := hts t (List.mem_cons_self _ _)
      have hstep : rateLimitCheck st identity t L =
          (decide (c + 1 ≤ L), setWindow st identity ⟨W, c + 1⟩) := by
        simp [rateLimitCheck, hst, htW]
      have hst2 : lookupWindow (setWindow st identity ⟨W, c + 1⟩) identity =
          some ⟨W, c + 1⟩ := by
        rw [lookupWindow_setWindow, if_pos rfl]
      obtain ⟨ihd, ihs⟩ :=
        ih (fun x hx => hts x (List.mem_cons_of_mem _ hx))
          (setWindow st identity ⟨W, c + 1⟩) (c + 1) hst2
      constructor
      · show (rateLimitCheck st identity t L).1 ::
            (runRequests (rateLimitCheck st identity t L).2 identity L ts).1 = _
        rw [hstep]
        simp only [ihd, List.length_cons, List.range_succ_eq_map, List.map_cons,
          List.map_map]
        congr 1
        refine List.map_congr_left ?_
        intro i _
        have h2 : c + 1 + i + 1 = c + (i + 1) + 1 := by omega
        simp only [Function.comp_apply, Nat.succ_eq_add_one]
        rw [h2]
      · show lookupWindow
            (runRequests (rateLimitCheck st identity t L).2 identity L ts).2 identity = _
        rw [hstep]
        simp only [ihs, List.length_cons]
        have : c + 1 + ts.length = c + (ts.length + 1) := by omega
        rw [this]

/-- Claim C4 (modelled from the spec, the middleware source being absent): with
limit L at least 1 and a fresh identity, for any sequence of L+1 request
times inside one fixed window W the limiter allows exactly the first L
requests and rejects the (L+1)th (the decision list is true for the first L
positions and false at position L+1); the rejected request still increments
the stored counter to L+1 with no rollback; and the next request from the
same identity in a later window is allowed again. -/
theorem rate_limiter_fixed_window (L W : Nat) (identity : String) (ts : List Nat)
    (now2 : Nat) (hL : 1 ≤ L) (hts : ∀ t ∈ ts, t / 60 = W)
    (hlen : ts.length = L + 1) (hroll : now2 / 60 ≠ W) :
    (runRequests [] identity L ts).1 =
        (List.range (L + 1)).map (fun i => decide (i + 1 ≤ L)) ∧
      lookupWindow (runRequests [] identity L ts).2 identity = some ⟨W, L + 1⟩ ∧
      (rateLimitCheck (runRequests [] identity L ts).2 identity now2 L).1 = true := by
  cases ts with
  | nil => simp at hlen
  | cons t ts =>
      have htW : t / 60 = W := hts t (List.mem_cons_self _ _)
      have hstep : rateLimitCheck [] identity t L =
          (decide (0 + 1 ≤ L), setWindow [] identity ⟨W, 0 + 1⟩) := by
        simp [rateLimitCheck, lookupWindow, htW]
      have hst2 : lookupWindow (setWindow [] identity ⟨W, 1⟩) identity =
          some ⟨W, 1⟩ := by
        rw [lookupWindow_setWindow, if_pos rfl]
      obtain ⟨ihd, ihs⟩ :=
        runRequests_counting identity L W ts
          (fun x hx => hts x (List.mem_cons_of_mem _ hx))
          (setWindow [] identity ⟨W, 1⟩) 1 hst2
      have hlen2 : ts.length = L := by
        simpa using hlen
      have hdec : (runRequests [] identity L (t :: ts)).1 =
          (List.range (L + 1)).map (fun i => decide (i + 1 ≤ L)) := by
        show (rateLimitCheck [] identity t L).1 ::
            (runRequests (rateLimitCheck [] identity t L).2 identity L ts).1 = _
        rw [hstep]
        simp only [ihd, hlen2, List.range_succ_eq_map, List.map_cons, List.map_map]
        congr 1
        refine List.map_congr_left ?_
        intro i _
        have h2 : 1 + i + 1 = i + 1 + 1 := by omega
        simp only [Function.comp_apply, Nat.succ_eq_add_one]
        rw [h2]
      have hcount : lookupWindow (runRequests [] identity L (t :: ts)).2 identity =
          some ⟨W, L + 1⟩ := by
        show lookupWindow
            (runRequests (rateLimitCheck [] identity t L).2 identity L ts).2 identity = _
        rw [hstep]
        simp only [ihs, hlen2]
        have : 1 + L = L + 1 := by omega
        rw [this]
      refine ⟨hdec, hcount, ?_⟩
      simp only [rateLimitCheck, hcount, decide_eq_true_eq]
      rw [if_neg (fun h => hroll h.symm)]
      omega

theorem rate_limiter_fixed_window_witness :
    (1 ≤ 2 ∧ (∀ t ∈ [60, 75, 119], t / 60 = 1) ∧
        ([60, 75, 119] : List Nat).length = 2 + 1 ∧ (150 : Nat) / 60 ≠ 1) ∧
      (runRequests [] "client" 2 [60, 75, 119]).1 =
          (List.range (2 + 1)).map (fun i => decide (i + 1 ≤ 2)) ∧
        lookupWindow (runRequests [] "client" 2 [60, 75, 119]).2 "client" =
          some ⟨1, 2 + 1⟩ ∧
        (rateLimitCheck (runRequests [] "client" 2 [60, 75, 119]).2 "client" 150 2).1 =
          true :=
  ⟨⟨by decide, by decide, by decide, by decide⟩,
    rate_limiter_fixed_window 2 1 "client" [60, 75, 119] 150
      (by decide) (by decide) (by decide) (by decide)⟩

end Bifrost
